import Mathlib

/-!
Verification development for the PharmaForge compliance back-end.

The definitions below are a shallow embedding of the Python source:

* `app/services/watchtower/constants.py` — `normalize_shortage_status`
* `app/services/watchtower/providers/base.py` — `WatchItem`, `generate_stable_id`
* `app/services/watchtower/providers/fda_recalls.py` — `FDARecallsProvider._parse_json`
* `app/services/watchtower/providers/fda_shortages.py` — `FDAShortagesProvider._parse_shortage_item`
* `app/services/watchtower/feed_service.py` — `_persist_items`, `_update_sync_status`,
  `sync_provider`, `sync_all_providers`, `get_health_status` (per-source classification)
* `app/api/risk_findings.py` — `_generate_mock_findings`, `_generate_action_plan`,
  `_generate_correlation`, `run_complete_workflow`, `export_audit_packet`
* `app/db/models.py` — the table rows these functions read and write.

Modelling conventions: database sessions become an explicit `DB` record threaded
through each operation (writes are total: DB-availability failures are out of scope);
`datetime.utcnow()` becomes an explicit `now : Nat` tick parameter and rendered
timestamps use `toString`; Python dict payloads become structures of `Option String`
fields where a missing key is `none` (Python `dict.get` with a default becomes
`Option.getD`); Python truthiness of strings ("" is falsy) is modelled explicitly.
Auto-increment primary keys are modelled as `length + 1` over the append-only row
lists.  `raw_json` blobs are not modelled (no claim inspects them).
-/

namespace PharmaForge

/-- Lowercasing, modelling Python's `str.lower()` character-wise
(structural recursion over the character list so that proofs can evaluate). -/
def strLower (s : String) : String := ⟨s.data.map Char.toLower⟩

/-- Python's `str.strip()`: drop whitespace from both ends. -/
def strTrim (s : String) : String :=
  ⟨((s.data.dropWhile Char.isWhitespace).reverse.dropWhile Char.isWhitespace).reverse⟩

/-- Python's slice `s[:n]` on code points. -/
def strTake (s : String) (n : Nat) : String := ⟨s.data.take n⟩

/-- Character-list substring occurrence (at any position). -/
def containsChars (hay needle : List Char) : Bool :=
  match hay with
  | [] => needle.isEmpty
  | _ :: t => needle.isPrefixOf hay || containsChars t needle

/-- Substring test, modelling Python's `needle in haystack` for strings
(an empty needle always occurs). -/
def containsSub (hay needle : String) : Bool :=
  containsChars hay.data needle.data

/-- Python truthiness for an optional string: `None` and `""` are falsy. -/
def pyTruthy (o : Option String) : Option String :=
  match o with
  | some s => if s = "" then none else some s
  | none => none

/-- Models a Python `a or b or c ...` chain over optional strings:
the first truthy (non-`None`, non-empty) value, if any. -/
def firstTruthy (l : List (Option String)) : Option String :=
  l.foldl (fun acc o => match acc with | some s => some s | none => pyTruthy o) none

/-! ## Status enums (`app/db/models.py`) -/

/-- `EvidenceStatus` enum. -/
inductive EvidenceStatus
  | pending
  | processing
  | processed
  | failed
  deriving DecidableEq, Repr

/-- Lowercase string label of an `EvidenceStatus` (the `.value` accessor). -/
def EvidenceStatus.value : EvidenceStatus → String
  | .pending => "pending"
  | .processing => "processing"
  | .processed => "processed"
  | .failed => "failed"

/-- `WorkflowRunStatus` enum. -/
inductive WorkflowRunStatus
  | pending
  | running
  | success
  | failed
  deriving DecidableEq, Repr

/-- Lowercase string label of a `WorkflowRunStatus` (the `.value` accessor). -/
def WorkflowRunStatus.value : WorkflowRunStatus → String
  | .pending => "pending"
  | .running => "running"
  | .success => "success"
  | .failed => "failed"

/-! ## Table rows (`app/db/models.py`) -/

/-- `Evidence` row (the fields read by the golden-workflow endpoints). -/
structure Evidence where
  id : Nat
  organization_id : Nat
  filename : String
  sha256 : String
  content_type : String
  uploaded_at : Option Nat
  source : Option String
  /-- nullable in the DB; `""` models both NULL and the empty string, which
  Python treats identically (`if not evidence.extracted_text`). -/
  extracted_text : String
  status : EvidenceStatus
  error_message : Option String
  deriving DecidableEq, Repr

/-- `WorkflowRun` row. -/
structure WorkflowRun where
  id : Nat
  organization_id : Nat
  evidence_id : Nat
  created_by : Nat
  status : WorkflowRunStatus
  error_message : Option String
  findings_count : Nat
  correlations_count : Nat
  actions_count : Nat
  created_at : Nat
  completed_at : Option Nat
  deriving DecidableEq, Repr

/-- `RiskFindingRecord` row. -/
structure RiskFindingRecord where
  id : Nat
  workflow_run_id : Nat
  evidence_id : Nat
  title : String
  description : String
  severity : String
  cfr_refs : List String
  citations : List String
  entities : List String
  deriving DecidableEq, Repr

/-- One action of an action plan (`ActionItem` schema; the generator always
sets an owner and a deadline, so they are plain strings here). -/
structure ActionItem where
  title : String
  description : String
  priority : String
  owner : String
  deadline : String
  deriving DecidableEq, Repr

/-- `VendorMatch` schema. -/
structure VendorMatch where
  vendor_id : Option Nat
  name : String
  match_basis : String
  risk_score : Option Nat
  risk_level : Option String
  deriving DecidableEq, Repr

/-- One entry of `sources_status` in a `WatchtowerSnapshot`. -/
structure SourceStatusEntry where
  source : String
  last_success_at : Option Nat
  healthy : Bool
  deriving DecidableEq, Repr

/-- One entry of `top_items` in a `WatchtowerSnapshot`. -/
structure TopItem where
  id : Nat
  source : String
  title : String
  category : Option String
  published_at : Option Nat
  deriving DecidableEq, Repr

/-- `WatchtowerSnapshot` schema. -/
structure WatchtowerSnapshot where
  total_feed_items : Nat
  active_alerts : Nat
  sources_status : List SourceStatusEntry
  top_items : List TopItem
  timestamp : Nat
  deriving DecidableEq, Repr

/-- The correlation dict produced by `_generate_correlation`. -/
structure Correlation where
  evidence_id : Nat
  watchtower_snapshot : WatchtowerSnapshot
  vendor_matches : List VendorMatch
  narrative : List String
  correlation_timestamp : Nat
  deriving DecidableEq, Repr

/-- `ActionPlanRecord` row.  `correlation_data` is a JSON column whose default
is the empty object `{}`; `none` models that empty object (Python's
`if not correlation` test), `some c` a populated correlation snapshot. -/
structure ActionPlanRecord where
  id : Nat
  workflow_run_id : Nat
  evidence_id : Nat
  rationale : String
  actions : List ActionItem
  owners : List String
  deadlines : List String
  correlation_data : Option Correlation
  deriving DecidableEq, Repr

/-- `AuditLog` row (the fields the claims inspect; the `details` JSON blob and
IP address are not modelled). -/
structure AuditLog where
  organization_id : Nat
  user_id : Nat
  action : String
  entity_type : String
  entity_id : Nat
  timestamp : Nat
  deriving DecidableEq, Repr

/-- `WatchtowerItem` row (the persisted feed item; `raw_json` not modelled). -/
structure StoredItem where
  id : Nat
  source : String
  external_id : String
  title : String
  url : Option String
  published_at : Option Nat
  summary : Option String
  category : Option String
  deriving DecidableEq, Repr

/-- `WatchtowerSyncStatus` row. -/
structure SyncStatusRow where
  source : String
  last_success_at : Option Nat
  last_error_at : Option Nat
  last_error_message : Option String
  last_run_at : Option Nat
  last_http_status : Option Nat
  items_fetched : Nat
  items_saved : Nat
  deriving DecidableEq, Repr

/-- `WatchtowerAlert` row (only the fields `_generate_correlation` filters on). -/
structure WatchtowerAlert where
  id : Nat
  organization_id : Nat
  is_acknowledged : Bool
  deriving DecidableEq, Repr

/-- `Vendor` row (the fields the correlation builder reads). -/
structure Vendor where
  id : Nat
  organization_id : Nat
  name : String
  risk_score : Option Nat
  risk_level : Option String
  deriving DecidableEq, Repr

/-- The database state threaded through every operation.  Each field is one
table, as an append-only list of rows. -/
structure DB where
  evidences : List Evidence
  runs : List WorkflowRun
  findings : List RiskFindingRecord
  action_plans : List ActionPlanRecord
  audit_logs : List AuditLog
  watchtower_items : List StoredItem
  alerts : List WatchtowerAlert
  vendors : List Vendor
  sync_statuses : List SyncStatusRow
  deriving DecidableEq, Repr

/-- `get_risk_level_str` (`app/api/risk_findings.py`): `None` becomes `"low"`,
otherwise the stored label. -/
def get_risk_level_str (risk_level : Option String) : String :=
  risk_level.getD "low"

/-! ## `normalize_shortage_status` (`app/services/watchtower/constants.py`) -/

/-- `normalize_shortage_status`: total normalization of a raw shortage status
string to one of `current` / `resolved` / `terminated`, or `none` for unknown.
First the exact `SHORTAGE_STATUS_MAP` lookup, then the fuzzy substring
fallbacks. -/
def normalize_shortage_status (status : String) : Option String :=
  if status = "" then none
  else
    let s := strLower (strTrim status)
    if s ∈ ["currently in shortage", "current", "active", "ongoing"] then some "current"
    else if s ∈ ["resolved", "no longer in shortage", "discontinued"] then some "resolved"
    else if s ∈ ["terminated", "ended"] then some "terminated"
    else if s ∈ ["unknown", ""] then none
    else if containsSub s "current" || containsSub s "shortage" then some "current"
    else if containsSub s "resolved" || containsSub s "available" then some "resolved"
    else if containsSub s "terminated" || containsSub s "ended" then some "terminated"
    else none

/-! ## `WatchItem` (`app/services/watchtower/providers/base.py`) -/

/-- Normalized feed item produced by a provider (`WatchItem` dataclass).
`ingested_at` is irrelevant to every claim and omitted. -/
structure WatchItem where
  source : String
  external_id : String
  title : String
  url : Option String
  published_at : Option Nat
  summary : Option String
  category : Option String
  tags : List String
  vendor_name : Option String
  manufacturer : Option String
  status : Option String
  deriving DecidableEq, Repr

/-- `WatchItem.__post_init__`: keep `manufacturer` and `vendor_name` in sync
(whichever is set fills the other). -/
def mkWatchItem (source external_id title : String) (url : Option String)
    (published_at : Option Nat) (summary : Option String) (category : Option String)
    (tags : List String) (vendor_name manufacturer status : Option String) : WatchItem :=
  let v := match vendor_name, manufacturer with
    | none, some m => some m
    | v, _ => v
  let m := match manufacturer, vendor_name with
    | none, some v' => some v'
    | m, _ => m
  { source := source, external_id := external_id, title := title, url := url
    published_at := published_at, summary := summary, category := category
    tags := tags, vendor_name := v, manufacturer := m, status := status }

/-- `WatchItem.generate_stable_id`.  The Python takes the first 32 hex digits of
the SHA-256 of `source|url|published_at_iso|title`; the hash step is abstracted
here as the joined key string itself (deterministic, and injective where the
hash is collision-free), since no claim inspects the digits. -/
def generate_stable_id (source : String) (url : Option String)
    (published_at : Option Nat) (title : String) : String :=
  String.intercalate "|"
    [source, url.getD "", (match published_at with | some n => toString n | none => ""), title]

/-! ## FDA recalls provider (`fda_recalls.py`, `FDARecallsProvider._parse_json`) -/

/-- One element of the openFDA enforcement `results` array (the keys
`_parse_json` reads); a missing key is `none`. -/
structure RecallPayload where
  recall_number : Option String
  recalling_firm : Option String
  product_description : Option String
  reason_for_recall : Option String
  classification : Option String
  report_date : Option String
  status : Option String
  deriving DecidableEq, Repr

/-- Models `datetime.strptime(report_date[:8], "%Y%m%d")`: the first 8
characters read as a number, `none` when too short or non-numeric
(month/day range validation is not modelled; no claim depends on it). -/
def parse_yyyymmdd (s : String) : Option Nat :=
  if 8 ≤ s.length then (strTake s 8).toNat? else none

/-- `FDARecallsProvider._parse_json` on one payload item: note the
`"Unknown Manufacturer"` / `"Unknown Product"` defaults taken straight from
the source. -/
def parse_recall_item (item : RecallPayload) : WatchItem :=
  let recall_number := item.recall_number.getD ""
  let recalling_firm := item.recalling_firm.getD "Unknown Manufacturer"
  let product_description := item.product_description.getD "Unknown Product"
  let reason_for_recall := item.reason_for_recall.getD ""
  let classification := item.classification.getD ""
  let report_date := item.report_date.getD ""
  let status := item.status.getD ""
  let external_id :=
    if recall_number ≠ "" then recall_number
    else "recall-" ++ strTake recalling_firm 20 ++ "-" ++ report_date
  let published_at := if report_date ≠ "" then parse_yyyymmdd report_date else none
  let product_short := if product_description.length > 100 then strTake product_description 100
    else product_description
  let title0 := "Recall: " ++ product_short
  let title := if classification ≠ "" then "[" ++ classification ++ "] " ++ title0 else title0
  let summary_parts :=
    (if recalling_firm ≠ "" then ["Firm: " ++ recalling_firm] else [])
    ++ (if reason_for_recall ≠ "" then ["Reason: " ++ strTake reason_for_recall 200] else [])
    ++ (if status ≠ "" then ["Status: " ++ status] else [])
  let summary := if summary_parts.isEmpty then none
    else some (strTake (String.intercalate ". " summary_parts) 1000)
  let url := if recall_number ≠ "" then
    some ("https://www.accessdata.fda.gov/scripts/cdrh/cfdocs/cfRES/res.cfm?id=" ++ recall_number)
    else none
  mkWatchItem "fda_recalls" external_id (strTake title 200) url published_at summary
    (some "recall") [] none none none

/-- `FDARecallsProvider._parse_json` over the `results` array (the per-item
`try/except` never fires in this pure model). -/
def parse_recall_json (results : List RecallPayload) : List WatchItem :=
  results.map parse_recall_item

/-! ## FDA shortages provider (`fda_shortages.py`, `_parse_shortage_item`) -/

/-- One element of the shortages JSON feed (every key `_parse_shortage_item`
probes); a missing key is `none`.  `therapeutic_category` is modelled in its
list form (the `isinstance(..., list)` branch). -/
structure ShortagePayload where
  generic_name : Option String
  drug_name : Option String
  product_name : Option String
  name : Option String
  company_name : Option String
  manufacturer : Option String
  labeler : Option String
  firm_name : Option String
  status : Option String
  availability : Option String
  shortage_status : Option String
  update_date : Option String
  updated_date : Option String
  last_update : Option String
  date : Option String
  initial_posting_date : Option String
  initial_date : Option String
  package_ndc : Option String
  ndc : Option String
  therapeutic_category : List String
  dosage_form : Option String
  form : Option String
  presentation : Option String
  strength : Option String
  available : Option String
  deriving DecidableEq, Repr

/-- `FDAShortagesProvider._parse_shortage_item`.  `parse_date` abstracts
`_parse_date` (the multi-format date parser), which only feeds
`published_at`; every theorem below holds for an arbitrary parser.
`shortageItemOf` is the item built once the drug name is known present. -/
def shortageItemOf (parse_date : String → Option Nat) (item : ShortagePayload) :
    WatchItem :=
  let generic_name :=
    (firstTruthy [item.generic_name, item.drug_name, item.product_name, item.name]).getD ""
  let company_name :=
    firstTruthy [item.company_name, item.manufacturer, item.labeler, item.firm_name]
  let raw_status :=
    (firstTruthy [item.status, item.availability, item.shortage_status]).getD ""
  let normalized_status := normalize_shortage_status raw_status
  let update_date :=
    (firstTruthy [item.update_date, item.updated_date, item.last_update, item.date]).getD ""
  let initial_date :=
    (firstTruthy [item.initial_posting_date, item.initial_date]).getD ""
  let published_at := (parse_date update_date).orElse (fun _ => parse_date initial_date)
  let package_ndc := (firstTruthy [item.package_ndc, item.ndc]).getD ""
  let external_id :=
    if package_ndc ≠ "" then "shortage-" ++ package_ndc
    else generate_stable_id "fda_shortages" none published_at generic_name
  let availability := (firstTruthy [item.availability, item.available]).getD ""
  let title := "Drug Shortage: " ++ generic_name ++
    (if availability ≠ "" && strLower availability ∉ ["unknown", ""] then
      " (" ++ availability ++ ")" else "")
  let summary_parts :=
    (match company_name with | some c => ["Manufacturer: " ++ c] | none => [])
    ++ (match normalized_status with | some s => ["Status: " ++ s] | none => [])
    ++ (if item.therapeutic_category.isEmpty then []
        else ["Category: " ++ String.intercalate ", " item.therapeutic_category])
    ++ (match pyTruthy (firstTruthy [item.dosage_form, item.form]) with
        | some d => ["Form: " ++ d] | none => [])
    ++ (match pyTruthy (firstTruthy [item.presentation, item.strength]) with
        | some p => ["Presentation: " ++ p] | none => [])
  let summary := if summary_parts.isEmpty then none
    else some (strTake (String.intercalate ". " summary_parts) 1000)
  let url := some "https://www.accessdata.fda.gov/scripts/drugshortages/default.cfm"
  let tags := ["shortage"] ++ item.therapeutic_category
  mkWatchItem "fda_shortages" external_id title url published_at summary
    (some "shortage") tags company_name company_name normalized_status

/-- The `if not generic_name: return None` guard wrapping `shortageItemOf`. -/
def parse_shortage_item (parse_date : String → Option Nat) (item : ShortagePayload) :
    Option WatchItem :=
  let generic_name :=
    (firstTruthy [item.generic_name, item.drug_name, item.product_name, item.name]).getD ""
  if generic_name = "" then none
  else some (shortageItemOf parse_date item)

/-! ## Findings extractor (`risk_findings.py`, `_generate_mock_findings`) -/

/-- A finding dict as produced by `_generate_mock_findings`. -/
structure FindingData where
  id : Nat
  evidence_id : Nat
  title : String
  description : String
  severity : String
  cfr_refs : List String
  citations : List String
  entities : List String
  created_at : Nat
  deriving DecidableEq, Repr

/-- The two `if len(findings) < 3` filler appends at the end of
`_generate_mock_findings` (`general` then `retention`). -/
def fillerStep (base : List FindingData) (general retention : FindingData) :
    List FindingData :=
  let step1 := if base.length < 3 then base ++ [general] else base
  if step1.length < 3 then step1 ++ [retention] else step1

/-- `_generate_mock_findings`: keyword-driven findings, the two `len < 3`
filler appends (`fillerStep`), and the cap at 10.  The process-global `_next_finding_id`
counter is modelled as per-call numbering from 1 (only the sequence order is
observable). -/
def generate_mock_findings (text : String) (evidence_id : Nat) (now : Nat) :
    List FindingData :=
  let tl := strLower text
  let mk : String → String → String → List String → List String → FindingData :=
    fun title descr sev refs cites =>
      { id := 0, evidence_id := evidence_id, title := title, description := descr
        severity := sev, cfr_refs := refs, citations := cites, entities := []
        created_at := now }
  let base : List FindingData :=
    (if containsSub tl "temperature" || containsSub tl "cold chain" || containsSub tl "storage" then
      [mk "Cold Chain Storage Compliance Gap"
        "Document references temperature-sensitive storage. Verify compliance with 21 CFR 211.142 storage requirements."
        "HIGH" ["21 CFR 211.142", "21 CFR 211.150"]
        ["'temperature' mentioned in source document"]] else [])
    ++ (if containsSub tl "cgmp" || containsSub tl "gmp" || containsSub tl "manufacturing" then
      [mk "cGMP Documentation Review Required"
        "Manufacturing processes referenced require cGMP compliance verification per 21 CFR Parts 210-211."
        "MEDIUM" ["21 CFR 210", "21 CFR 211"]
        ["Manufacturing/cGMP terminology in document"]] else [])
    ++ (if containsSub tl "recall" || containsSub tl "defect" || containsSub tl "deviation" then
      [mk "Product Quality Deviation Detected"
        "Quality deviation or recall-related content found. Immediate investigation required per 21 CFR 211.192."
        "HIGH" ["21 CFR 211.192", "21 CFR Part 7"]
        ["Quality deviation terminology detected"]] else [])
    ++ (if containsSub tl "supplier" || containsSub tl "vendor" then
      [mk "Supplier Qualification Assessment Needed"
        "Supplier/vendor references found. Verify supplier qualification per 21 CFR 211.84."
        "MEDIUM" ["21 CFR 211.84", "21 CFR 211.80"]
        ["Supplier/vendor references in document"]] else [])
    ++ (if containsSub tl "labeling" || containsSub tl "label" then
      [mk "Labeling Compliance Check Required"
        "Labeling content detected. Verify compliance with 21 CFR 211.122-137 labeling requirements."
        "MEDIUM" ["21 CFR 211.122", "21 CFR 211.125", "21 CFR 211.130"]
        ["Labeling terminology in document"]] else [])
    ++ (if containsSub tl "serialization" || containsSub tl "dscsa" || containsSub tl "traceability" then
      [mk "DSCSA Serialization Compliance Required"
        "Serialization/traceability content found. Ensure DSCSA compliance for product tracking."
        "HIGH" ["DSCSA Section 582"]
        ["Serialization/DSCSA references in document"]] else [])
  let general := mk "General Document Compliance Review"
    "Document requires review for general regulatory compliance. Consider 21 CFR Part 211 applicability."
    "LOW" ["21 CFR 211"] ["General document review"]
  let retention := mk "Record Retention Verification"
    "Verify document retention policies align with 21 CFR 211.180 requirements."
    "LOW" ["21 CFR 211.180"] ["Standard record retention check"]
  ((fillerStep base general retention).enum.map (fun p => { p.2 with id := p.1 + 1 })).take 10

/-! ## Action planner (`risk_findings.py`, `_generate_action_plan`) -/

/-- The plan dict returned by `_generate_action_plan`. -/
structure PlanData where
  top_actions : List ActionItem
  rationale : String
  owners : List String
  deadlines : List String
  deriving DecidableEq, Repr

set_option linter.unusedVariables false in
/-- `_generate_action_plan`: up to 3 HIGH actions, up to 2 MEDIUM actions, one
supply-chain action when vendor risks exist, always one documentation action.
`owners`/`deadlines` are the Python `list(set(...))` projections, modelled as
deduplication (Python set iteration order is unspecified).  The
`watchtower_summary` argument is accepted and unused, exactly as in the
source. -/
def generate_action_plan (findings : List FindingData)
    (watchtower_summary : Option WatchtowerSnapshot) (vendor_risks : List VendorMatch) :
    PlanData :=
  let high_findings := findings.filter (fun f => f.severity = "HIGH")
  let high_actions := (high_findings.take 3).map (fun f =>
    { title := "Investigate: " ++ f.title
      description := "Address finding: " ++ f.description ++ ". Reference: " ++
        String.intercalate ", " f.cfr_refs
      priority := "HIGH", owner := "Quality Assurance Lead"
      deadline := "Within 48 hours" : ActionItem })
  let medium_findings := findings.filter (fun f => f.severity = "MEDIUM")
  let medium_actions := (medium_findings.take 2).map (fun f =>
    { title := "Review: " ++ f.title
      description := "Evaluate finding: " ++ f.description
      priority := "MEDIUM", owner := "Regulatory Affairs"
      deadline := "Within 7 days" : ActionItem })
  let nv := vendor_risks.length
  let vendor_actions : List ActionItem := if vendor_risks.isEmpty then [] else
    [{ title := "Vendor Risk Mitigation"
       description := s!"Review {nv} vendor(s) identified with elevated risk profiles."
       priority := "MEDIUM", owner := "Supply Chain Manager"
       deadline := "Within 14 days" }]
  let doc_action : List ActionItem :=
    [{ title := "Document Remediation Actions"
       description := "Compile remediation documentation and update CAPA records."
       priority := "LOW", owner := "Documentation Specialist", deadline := "Ongoing" }]
  let actions := high_actions ++ medium_actions ++ vendor_actions ++ doc_action
  let nf := findings.length
  let nh := high_findings.length
  let rationale :=
    s!"Action plan generated based on {nf} compliance finding(s). " ++
    s!"Prioritized {nh} HIGH severity issue(s) requiring immediate attention. " ++
    (if vendor_risks.isEmpty then "" else "Vendor risks incorporated into supply chain review.")
  { top_actions := actions, rationale := rationale
    owners := (actions.map (fun a => a.owner)).dedup
    deadlines := (actions.map (fun a => a.deadline)).dedup }

/-! ## Correlation builder (`risk_findings.py`, `_generate_correlation`) -/

/-- Sort key for the `order_by(desc(published_at)).limit(5)` query; a NULL
`published_at` is treated as oldest (the backend's NULL placement is not
observable by any claim). -/
def pubKey (it : StoredItem) : Nat := it.published_at.getD 0

/-- `_generate_correlation`.  The regex-based `_extract_vendor_candidates`
helper enters as the function argument `extract_candidates` (its output list
is all the correlation builder consumes); every theorem below holds for an
arbitrary extractor. -/
def generate_correlation
    (extract_candidates : String → String → List FindingData → List String)
    (db : DB) (evidence : Evidence) (findings : List FindingData)
    (org_id : Nat) (now : Nat) : Correlation :=
  let total_feed_items := db.watchtower_items.length
  let active_alerts := (db.alerts.filter (fun a =>
    a.organization_id = org_id && !a.is_acknowledged)).length
  let recent_items :=
    (List.insertionSort (fun a b => pubKey b ≤ pubKey a) db.watchtower_items).take 5
  let top_items := recent_items.map (fun it =>
    { id := it.id, source := it.source, title := strTake it.title 100
      category := it.category, published_at := it.published_at : TopItem })
  let sources_status := db.sync_statuses.map (fun s =>
    { source := s.source, last_success_at := s.last_success_at
      healthy := s.last_error_at.isNone ||
        (match s.last_success_at, s.last_error_at with
         | some su, some er => decide (er < su)
         | _, _ => false) : SourceStatusEntry })
  let snapshot : WatchtowerSnapshot :=
    { total_feed_items := total_feed_items, active_alerts := active_alerts
      sources_status := sources_status, top_items := top_items, timestamp := now }
  let candidates := extract_candidates evidence.extracted_text evidence.filename findings
  let org_vendors := db.vendors.filter (fun v => v.organization_id = org_id)
  let matched := org_vendors.foldl (fun acc v =>
    let vn := strLower v.name
    if candidates.any (fun c => containsSub vn (strLower c) || containsSub (strLower c) vn) then
      if acc.any (fun vm => vm.vendor_id = some v.id) then acc
      else acc ++ [{ vendor_id := some v.id, name := v.name, match_basis := "text_content"
                     risk_score := v.risk_score
                     risk_level := some (get_risk_level_str v.risk_level) : VendorMatch }]
    else acc) ([] : List VendorMatch)
  let vendor_matches := (candidates.take 5).foldl (fun acc c =>
    let already_matched := acc.any (fun vm => containsSub (strLower vm.name) (strLower c))
    if !already_matched && c.length > 3 then
      acc ++ [{ vendor_id := none, name := c, match_basis := "unmatched_candidate"
                risk_score := none, risk_level := none : VendorMatch }]
    else acc) matched
  let high_findings := findings.filter (fun f => f.severity = "HIGH")
  let nh := high_findings.length
  let narrative1 : List String :=
    if ¬ high_findings.isEmpty then
      [s!"🔴 {nh} HIGH severity finding(s) require immediate attention."] else []
  let narrative2 : List String :=
    if active_alerts > 0 then
      narrative1 ++ [s!"⚠️ {active_alerts} active Watchtower alert(s) may indicate supply chain exposure."]
    else narrative1
  let matched_vendors := vendor_matches.filter (fun vm => vm.vendor_id.isSome)
  let high_risk := matched_vendors.filter (fun vm =>
    vm.risk_level = some "high" || vm.risk_level = some "critical")
  let nr := high_risk.length
  let nm := matched_vendors.length
  let narrative3 : List String :=
    if ¬ matched_vendors.isEmpty then
      if ¬ high_risk.isEmpty then
        narrative2 ++ [s!"🚨 {nr} matched vendor(s) flagged as high/critical risk."]
      else
        narrative2 ++ [s!"✓ {nm} vendor(s) identified and tracked in your vendor registry."]
    else narrative2
  let narrative4 : List String :=
    if total_feed_items > 0 then
      narrative3 ++ [s!"📡 Watchtower is monitoring {total_feed_items} FDA feed item(s) for correlation."]
    else narrative3
  let narrative : List String :=
    if narrative4.isEmpty then
      ["No significant correlations detected. Consider uploading more evidence or syncing Watchtower feeds."]
    else narrative4
  { evidence_id := evidence.id, watchtower_snapshot := snapshot
    vendor_matches := vendor_matches, narrative := narrative
    correlation_timestamp := now }

/-! ## Workflow orchestrator (`risk_findings.py`, `run_complete_workflow`) -/

/-- The structured refusals `run_complete_workflow` raises as `HTTPException`s
before (or, for `internal_error`, while) executing the pipeline. -/
inductive WfRefusal
  | evidence_not_found
  | evidence_pending
  | evidence_processing
  | evidence_failed (error_message : Option String)
  | evidence_empty
  | internal_error (message : String)
  deriving DecidableEq, Repr

/-- The `detail` string carried by each refusal's `HTTPException`. -/
def WfRefusal.detail : WfRefusal → String
  | .evidence_not_found => "Evidence not found"
  | .evidence_pending =>
      "Evidence is still pending processing. Please wait for processing to complete."
  | .evidence_processing =>
      "Evidence is currently being processed. Please wait for processing to complete."
  | .evidence_failed e =>
      let msg := e.getD "Unknown error"
      s!"Evidence processing failed: {msg}. Please upload a valid document."
  | .evidence_empty =>
      "Evidence has no extracted text. Upload a PDF or TXT file with content."
  | .internal_error m => s!"Workflow failed: {m}"

/-- The `WorkflowRunResponse` payload of a successful run. -/
structure WorkflowRunResponse where
  workflow_run_id : Nat
  evidence_id : Nat
  status : String
  findings_count : Nat
  correlations_count : Nat
  actions_count : Nat
  created_at : Nat
  message : String
  deriving DecidableEq, Repr

/-- `Evidence` lookup scoped to the caller's organization
(`db.query(Evidence).filter(id, organization_id).first()`). -/
def findEvidence (db : DB) (org_id evidence_id : Nat) : Option Evidence :=
  db.evidences.find? (fun e => e.id = evidence_id && e.organization_id = org_id)

/-- `run_complete_workflow` (`POST /api/risk/workflow/run`).

The `exc` argument injects the `except Exception` branch of the source: `none`
runs the pipeline to success, `some e` models an unexpected exception raised
in steps 2–5 (whose handler — mark the run `failed` with the message, set
`completed_at`, commit, re-raise as a 500 — does not depend on the failure
point; partially-flushed findings of an interrupted run are not modelled). -/
def run_complete_workflow
    (extract_candidates : String → String → List FindingData → List String)
    (db : DB) (org_id user_id evidence_id : Nat) (exc : Option String) (now : Nat) :
    Except WfRefusal WorkflowRunResponse × DB :=
  match findEvidence db org_id evidence_id with
  | none => (.error .evidence_not_found, db)
  | some evidence =>
    if evidence.status = .pending then (.error .evidence_pending, db)
    else if evidence.status = .processing then (.error .evidence_processing, db)
    else if evidence.status = .failed then
      (.error (.evidence_failed evidence.error_message), db)
    else if evidence.extracted_text = "" then (.error .evidence_empty, db)
    else
      let run_id := db.runs.length + 1
      match exc with
      | some e =>
        let run : WorkflowRun :=
          { id := run_id, organization_id := org_id, evidence_id := evidence_id
            created_by := user_id, status := .failed, error_message := some e
            findings_count := 0, correlations_count := 0, actions_count := 0
            created_at := now, completed_at := some now }
        (.error (.internal_error e), { db with runs := db.runs ++ [run] })
      | none =>
        let findings_data := generate_mock_findings evidence.extracted_text evidence_id now
        let finding_records := findings_data.enum.map (fun p =>
          { id := db.findings.length + p.1 + 1, workflow_run_id := run_id
            evidence_id := evidence_id, title := p.2.title
            description := p.2.description, severity := p.2.severity
            cfr_refs := p.2.cfr_refs, citations := p.2.citations
            entities := p.2.entities : RiskFindingRecord })
        let correlation :=
          generate_correlation extract_candidates db evidence findings_data org_id now
        let plan_data :=
          generate_action_plan findings_data none correlation.vendor_matches
        let plan_record : ActionPlanRecord :=
          { id := db.action_plans.length + 1, workflow_run_id := run_id
            evidence_id := evidence_id, rationale := plan_data.rationale
            actions := plan_data.top_actions, owners := plan_data.owners
            deadlines := plan_data.deadlines, correlation_data := some correlation }
        let run : WorkflowRun :=
          { id := run_id, organization_id := org_id, evidence_id := evidence_id
            created_by := user_id, status := .success, error_message := none
            findings_count := findings_data.length
            correlations_count := correlation.vendor_matches.length
            actions_count := plan_data.top_actions.length
            created_at := now, completed_at := some now }
        let audit : AuditLog :=
          { organization_id := org_id, user_id := user_id
            action := "workflow_run_completed", entity_type := "workflow_run"
            entity_id := run_id, timestamp := now }
        let nfind := findings_data.length
        let nact := plan_data.top_actions.length
        (.ok { workflow_run_id := run_id, evidence_id := evidence_id
               status := "success", findings_count := findings_data.length
               correlations_count := correlation.vendor_matches.length
               actions_count := plan_data.top_actions.length, created_at := now
               message := s!"Workflow completed: {nfind} findings, {nact} actions" },
         { db with runs := db.runs ++ [run]
                   findings := db.findings ++ finding_records
                   action_plans := db.action_plans ++ [plan_record]
                   audit_logs := db.audit_logs ++ [audit] })

/-! ## Export validator & renderer (`risk_findings.py`, `export_audit_packet`) -/

/-- The structured refusals of `GET /api/risk/export-packet/{evidence_id}`,
each carrying the context fields of its `detail` payload. -/
inductive ExportRefusal
  | evidence_not_found (evidence_id : Nat)
  | evidence_not_processed (evidence_id : Nat) (status : String)
  | workflow_run_not_found (evidence_id run_id : Nat)
  | no_workflow_run (evidence_id : Nat) (action_required : String)
  | workflow_run_not_successful (evidence_id run_id : Nat) (status : String)
      (error_message : Option String)
  | findings_missing (evidence_id run_id : Nat)
  | action_plan_missing (evidence_id run_id : Nat)
  | correlation_missing (evidence_id run_id : Nat)
  deriving DecidableEq, Repr

/-- The stable `error` identifier of each export refusal. -/
def ExportRefusal.errorId : ExportRefusal → String
  | .evidence_not_found _ => "evidence_not_found"
  | .evidence_not_processed _ _ => "evidence_not_processed"
  | .workflow_run_not_found _ _ => "workflow_run_not_found"
  | .no_workflow_run _ _ => "no_workflow_run"
  | .workflow_run_not_successful _ _ _ _ => "workflow_run_not_successful"
  | .findings_missing _ _ => "findings_missing"
  | .action_plan_missing _ _ => "action_plan_missing"
  | .correlation_missing _ _ => "correlation_missing"

/-- A successful export: the Markdown line list, the joined content, and the
download filename hint. -/
structure ExportOk where
  lines : List String
  content : String
  filename : String
  deriving DecidableEq, Repr

/-- Findings of a workflow run
(`db.query(RiskFindingRecord).filter(workflow_run_id == ...).all()`). -/
def findingsFor (db : DB) (run_id : Nat) : List RiskFindingRecord :=
  db.findings.filter (fun f => f.workflow_run_id = run_id)

/-- Action plans of a workflow run (the schema intends exactly one). -/
def plansFor (db : DB) (run_id : Nat) : List ActionPlanRecord :=
  db.action_plans.filter (fun p => p.workflow_run_id = run_id)

/-- The `.first()` action-plan lookup for a run. -/
def planFor (db : DB) (run_id : Nat) : Option ActionPlanRecord :=
  db.action_plans.find? (fun p => p.workflow_run_id = run_id)

/-- Run lookup by id, scoped to organization and evidence. -/
def findRunById (db : DB) (org_id evidence_id run_id : Nat) : Option WorkflowRun :=
  db.runs.find? (fun r =>
    r.id = run_id && r.organization_id = org_id && r.evidence_id = evidence_id)

/-- The latest successful run for an evidence document
(`order_by(desc(created_at)).first()` over `status == SUCCESS`); ties on
`created_at` keep the earlier row (the backend's tiebreak is unspecified). -/
def latestSuccessRun (db : DB) (org_id evidence_id : Nat) : Option WorkflowRun :=
  (db.runs.filter (fun r =>
    r.organization_id = org_id && r.evidence_id = evidence_id &&
    r.status = WorkflowRunStatus.success)).foldl
    (fun acc r => match acc with
      | none => some r
      | some a => if a.created_at < r.created_at then some r else some a) none

/-- Audit entries for the evidence and run, ordered by timestamp
(`entity_type.in_(["evidence","workflow_run"])`, `entity_id.in_([evidence_id, run.id])`). -/
def auditLogsForExport (db : DB) (org_id evidence_id run_id : Nat) : List AuditLog :=
  List.insertionSort (fun a b => a.timestamp ≤ b.timestamp)
    (db.audit_logs.filter (fun l =>
      l.organization_id = org_id &&
      (l.entity_type = "evidence" || l.entity_type = "workflow_run") &&
      (l.entity_id = evidence_id || l.entity_id = run_id)))

/-- Rendering of one finding section (`### Finding {i}: ...`). -/
def renderFinding (p : Nat × RiskFindingRecord) : List String :=
  let i := p.1 + 1
  let f := p.2
  let cfr_refs_str :=
    if f.cfr_refs.isEmpty then "None specified" else String.intercalate ", " f.cfr_refs
  let citations_str :=
    if f.citations.isEmpty then "None specified" else String.intercalate ", " f.citations
  let t := f.title
  let sev := f.severity
  let descr := f.description
  [s!"### Finding {i}: {t}",
   s!"- **Severity**: {sev}",
   s!"- **Description**: {descr}",
   s!"- **CFR References**: {cfr_refs_str}",
   s!"- **Citations**: {citations_str}",
   ""]

/-- Rendering of one feed-source status table row. -/
def renderSourceRow (s : SourceStatusEntry) : String :=
  let src := s.source
  let succ := match s.last_success_at with | some n => toString n | none => "None"
  let healthy := if s.healthy then "✓" else "✗"
  s!"| {src} | {succ} | {healthy} |"

/-- Rendering of one vendor-match table row. -/
def renderVendorRow (vm : VendorMatch) : String :=
  let vid := match vm.vendor_id with
    | some v => if v = 0 then "Unmatched" else toString v
    | none => "Unmatched"
  let name := vm.name
  let basis := vm.match_basis
  let score := match vm.risk_score with | some sc => toString sc | none => "-"
  let level := (pyTruthy vm.risk_level).getD "-"
  s!"| {name} (ID: {vid}) | {basis} | {score} | {level} |"

/-- Rendering of one action section (`#### {i}. ...`). -/
def renderAction (p : Nat × ActionItem) : List String :=
  let i := p.1 + 1
  let a := p.2
  let t := a.title
  let pr := a.priority
  let descr := a.description
  let ow := a.owner
  let dl := a.deadline
  [s!"#### {i}. {t}",
   s!"- **Priority**: {pr}",
   s!"- **Description**: {descr}",
   s!"- **Owner**: {ow}",
   s!"- **Deadline**: {dl}",
   ""]

/-- Rendering of one audit-log table row (the `details` JSON blob is not
modelled and renders as the empty string, as Python does for `None`). -/
def renderAuditRow (l : AuditLog) : String :=
  let ts := toString l.timestamp
  let act := l.action
  s!"| {ts} | {act} |  |"

/-- The full Markdown line list the export endpoint builds (`md_lines`). -/
def exportLines (evidence : Evidence) (run : WorkflowRun)
    (findings : List RiskFindingRecord) (plan : ActionPlanRecord)
    (correlation : Correlation) (audits : List AuditLog) (now : Nat) :
    List String :=
  let filename := evidence.filename
  let rid := run.id
  let gen := toString now
  let run_status := run.status.value
  let created := toString run.created_at
  let completed := match run.completed_at with | some n => toString n | none => "In Progress"
  let eid := evidence.id
  let sha := evidence.sha256
  let ctype := evidence.content_type
  let uploaded := match evidence.uploaded_at with | some n => toString n | none => "N/A"
  let esource := (pyTruthy evidence.source).getD "upload"
  let header : List String :=
    [s!"# Audit Packet: {filename}",
     "**Workflow Run ID: " ++ toString rid ++ "**",
     s!"Generated: {gen}Z",
     "", "---", "",
     "## Workflow Run Information", "",
     s!"- **Workflow Run ID**: {rid}",
     s!"- **Status**: {run_status}",
     s!"- **Run Created At**: {created}",
     s!"- **Run Completed At**: {completed}",
     "", "---", "",
     "## 1. Evidence Metadata", "",
     s!"- **ID**: {eid}",
     s!"- **Filename**: {filename}",
     s!"- **SHA256**: {sha}",
     s!"- **Content Type**: {ctype}",
     s!"- **Uploaded At**: {uploaded}",
     s!"- **Source**: {esource}",
     ""]
  let excerptLines : List String :=
    if evidence.extracted_text ≠ "" then
      let excerpt := if evidence.extracted_text.length > 500 then
        strTake evidence.extracted_text 500 ++ "..." else evidence.extracted_text
      ["### Extracted Text Summary", "", "```", excerpt, "```", ""]
    else []
  let nfind := findings.length
  let findingsLines : List String :=
    ["---", "", "## 2. Compliance Findings", "",
     s!"**{nfind} finding(s) identified from this workflow run.**\n"]
    ++ (findings.enum.map renderFinding).flatten
  let snapshot := correlation.watchtower_snapshot
  let vendor_matches := correlation.vendor_matches
  let narrative := correlation.narrative
  let tfi := snapshot.total_feed_items
  let aa := snapshot.active_alerts
  let snapTs := toString snapshot.timestamp
  let corrTs := toString correlation.correlation_timestamp
  let corrHead : List String :=
    ["---", "", "## 3. Watchtower Correlation", "",
     "### Supply Chain Intelligence Snapshot", "",
     s!"- **Total Feed Items**: {tfi}",
     s!"- **Active Alerts**: {aa}",
     s!"- **Snapshot Timestamp**: {snapTs}",
     s!"- **Correlation Timestamp**: {corrTs}",
     ""]
  let sourcesLines : List String :=
    if ¬ snapshot.sources_status.isEmpty then
      ["### Feed Sources Status\n",
       "| Source | Last Success | Healthy |",
       "|--------|--------------|---------|"]
      ++ snapshot.sources_status.map renderSourceRow ++ [""]
    else
      ["### Feed Sources Status\n",
       "_No feed sources configured. Consider running POST /api/watchtower/sync._\n"]
  let vendorLines : List String :=
    ["### Vendor Matches\n"] ++
    (if ¬ vendor_matches.isEmpty then
      ["| Vendor | Match Basis | Risk Score | Risk Level |",
       "|--------|-------------|------------|------------|"]
      ++ vendor_matches.map renderVendorRow ++ [""]
    else ["_No vendor matches found in document._\n"])
  let narrativeLines : List String :=
    ["### Risk Narrative (Watchtower → Evidence → Risk Correlation)\n"] ++
    (if ¬ narrative.isEmpty then narrative.map (fun b => "- " ++ b)
     else ["- No significant correlations detected between Watchtower data and evidence."])
    ++ [""]
  let high_risk_vendors := vendor_matches.filter (fun vm =>
    vm.risk_level = some "high" || vm.risk_level = some "critical")
  let nvm := vendor_matches.length
  let nhr := high_risk_vendors.length
  let summaryLines : List String :=
    ["### Correlation Summary\n",
     s!"- **Findings Analyzed**: {nfind}",
     s!"- **Vendors Matched**: {nvm}",
     s!"- **High/Critical Risk Vendors**: {nhr}",
     s!"- **Active Watchtower Alerts**: {aa}",
     ""]
  let rationale := plan.rationale
  let actions := plan.actions
  let planLines : List String :=
    ["---", "", "## 4. Action Plan", "",
     s!"**Rationale**: {rationale}\n",
     "### Actions:\n"]
    ++ (if ¬ actions.isEmpty then (actions.enum.map renderAction).flatten
        else ["_No specific actions required based on findings._\n"])
  let auditLines : List String :=
    ["---", "", "## 5. Audit Log", "",
     "| Timestamp | Action | Details |",
     "|-----------|--------|---------|"]
    ++ audits.map renderAuditRow
    ++ (if audits.isEmpty then ["| _No audit entries_ | | |"] else [])
  header ++ excerptLines ++ findingsLines ++ corrHead ++ sourcesLines ++ vendorLines
    ++ narrativeLines ++ summaryLines ++ planLines ++ auditLines
    ++ ["", "---", "", "_End of Audit Packet_"]

/-- Resolution of the run to export: the given `run_id` when present
(scoped lookup), otherwise the latest successful run.  (A caller-supplied
`run_id` of 0 is not representable: DB ids start at 1, and Python's
`if run_id:` treats 0 as absent.) -/
def resolvedRun (db : DB) (org_id evidence_id : Nat) (run_id : Option Nat) :
    Option WorkflowRun :=
  match run_id with
  | some rid => findRunById db org_id evidence_id rid
  | none => latestSuccessRun db org_id evidence_id

/-- `export_audit_packet` (`GET /api/risk/export-packet/{evidence_id}`):
the refusal chain of the Golden Workflow contract, then the Markdown
rendering and the `audit_packet_exported` audit entry. -/
def export_audit_packet (db : DB) (org_id evidence_id : Nat) (run_id : Option Nat)
    (actor_id now : Nat) : Except ExportRefusal ExportOk × DB :=
  match findEvidence db org_id evidence_id with
  | none => (.error (.evidence_not_found evidence_id), db)
  | some evidence =>
    if evidence.status ≠ .processed then
      (.error (.evidence_not_processed evidence_id evidence.status.value), db)
    else
      match resolvedRun db org_id evidence_id run_id with
      | none =>
        (.error (match run_id with
          | some rid => .workflow_run_not_found evidence_id rid
          | none => .no_workflow_run evidence_id
              ("POST /api/risk/workflow/run?evidence_id=" ++ toString evidence_id)), db)
      | some run =>
        if run.status ≠ .success then
          (.error (.workflow_run_not_successful evidence_id run.id run.status.value
            run.error_message), db)
        else
          let db_findings := findingsFor db run.id
          if db_findings.isEmpty then
            (.error (.findings_missing evidence_id run.id), db)
          else
            match planFor db run.id with
            | none => (.error (.action_plan_missing evidence_id run.id), db)
            | some plan =>
              match plan.correlation_data with
              | none => (.error (.correlation_missing evidence_id run.id), db)
              | some correlation =>
                let audits := auditLogsForExport db org_id evidence_id run.id
                let lines :=
                  exportLines evidence run db_findings plan correlation audits now
                let fname := "audit_packet_run" ++ toString run.id ++ "_ev"
                  ++ toString evidence_id ++ "_" ++ toString now ++ ".md"
                let export_audit : AuditLog :=
                  { organization_id := org_id, user_id := actor_id
                    action := "audit_packet_exported"
                    entity_type := "workflow_run", entity_id := run.id
                    timestamp := now }
                (.ok { lines := lines, content := String.intercalate "\n" lines
                       filename := fname },
                 { db with audit_logs := db.audit_logs ++ [export_audit] })

/-! ## Feed persistence (`feed_service.py`, `_persist_items`) -/

/-- Does the store already hold an item with this `(source, external_id)` key? -/
def existsKey (items : List StoredItem) (it : WatchItem) : Bool :=
  items.any (fun e => e.source = it.source && e.external_id = it.external_id)

/-- The `WatchtowerItem` row inserted for a fetched item. -/
def storedOf (d : DB) (it : WatchItem) : StoredItem :=
  { id := d.watchtower_items.length + 1, source := it.source
    external_id := it.external_id, title := it.title, url := it.url
    published_at := it.published_at, summary := it.summary
    category := it.category }

/-- `_persist_items`: each item in its own savepoint; an item whose
`(source, external_id)` already exists in the store (including one inserted
earlier in the same batch, visible after `db.flush()`) is skipped and the
rest of the batch continues.  Returns the new-item count.  (The function
catches every per-item DB error and never raises.) -/
def persist_items (db : DB) (items : List WatchItem) : Nat × DB :=
  match items with
  | [] => (0, db)
  | it :: rest =>
    if existsKey db.watchtower_items it then persist_items db rest
    else
      let r := persist_items
        { db with watchtower_items := db.watchtower_items ++ [storedOf db it] } rest
      (r.1 + 1, r.2)

/-! ## Sync status upsert (`feed_service.py`, `_update_sync_status`) -/

/-- Replace the row for a source (or append a fresh one) in the status table. -/
def putSyncStatus (rows : List SyncStatusRow) (row : SyncStatusRow) : List SyncStatusRow :=
  if rows.any (fun s => s.source = row.source) then
    rows.map (fun s => if s.source = row.source then row else s)
  else rows ++ [row]

/-- The status-table row for a source. -/
def getSyncStatus (db : DB) (source_id : String) : Option SyncStatusRow :=
  db.sync_statuses.find? (fun s => s.source = source_id)

/-- `_update_sync_status`: upsert the per-source telemetry row.  On success,
`last_success_at` is set to the run time and both error fields are cleared;
on failure, `last_error_at` is set to the run time, the message is truncated
to 500 characters, and `last_success_at` is left unchanged.  (The function's
own `except` swallow-path is a DB-availability concern outside this model.)
`syncRowAfter` computes the written row from the previous one. -/
def syncRowAfter (prev : Option SyncStatusRow) (source_id : String) (success : Bool)
    (error : Option String) (http_status : Option Nat)
    (items_fetched items_saved : Nat) (now : Nat) : SyncStatusRow :=
  let base : SyncStatusRow := match prev with
    | some s => s
    | none =>
      { source := source_id, last_success_at := none, last_error_at := none
        last_error_message := none, last_run_at := none, last_http_status := none
        items_fetched := 0, items_saved := 0 }
  let row0 := { base with last_run_at := some now, last_http_status := http_status
                          items_fetched := items_fetched, items_saved := items_saved }
  if success then
    { row0 with last_success_at := some now, last_error_at := none
                last_error_message := none }
  else
    { row0 with last_error_at := some now
                last_error_message := (pyTruthy error).map (fun e => strTake e 500) }

/-- `_update_sync_status` proper: upsert the recomputed row. -/
def update_sync_status (db : DB) (source_id : String) (success : Bool)
    (error : Option String) (http_status : Option Nat)
    (items_fetched items_saved : Nat) (now : Nat) : DB :=
  let row := syncRowAfter (getSyncStatus db source_id) source_id success error
    http_status items_fetched items_saved now
  { db with sync_statuses := putSyncStatus db.sync_statuses row }

/-! ## Sync engine (`feed_service.py`, `sync_provider` / `sync_all_providers`) -/

/-- The registered provider source ids (`PROVIDERS` registry). -/
def providerIds : List String := ["fda_recalls", "fda_warning_letters", "fda_shortages"]

/-- The enabled source list from `SOURCE_CONFIG` (all three sources are
enabled; the `if not enabled_providers` fallback to `PROVIDERS` is
unreachable for this configuration). -/
def enabledSources : List String := ["fda_recalls", "fda_shortages", "fda_warning_letters"]

/-- The per-source result dict of `sync_provider`. -/
structure SyncResult where
  source : String
  success : Bool
  items_fetched : Nat
  items_added : Nat
  items_saved : Nat
  items_new : Nat
  error : Option String
  error_message : Option String
  last_http_status : Option Nat
  cached : Bool
  updated_at : Nat
  last_success_at : Option Nat
  last_error_at : Option Nat
  deriving DecidableEq, Repr

/-- `sync_provider`: fetch (or reuse the cache), persist, update telemetry —
never raising; every failure is recorded in the returned result.

The effectful collaborators enter as explicit values: `cache_hit` is what
`_get_from_cache` yields (`none` covers a miss, a cold or unavailable cache,
and a corrupt entry — all swallowed in the source), `fetch` is the outcome
`provider.fetch()` would produce (`Except.error e` models a raised
exception with message `e`), and `http_status` is the provider's
`last_http_status` attribute. -/
def sync_provider (source_id : String) (db : DB) (force : Bool)
    (cache_hit : Option (List WatchItem)) (fetch : Except String (List WatchItem))
    (http_status : Option Nat) (now : Nat) : SyncResult × DB :=
  let base : SyncResult :=
    { source := source_id, success := false, items_fetched := 0, items_added := 0
      items_saved := 0, items_new := 0, error := none, error_message := none
      last_http_status := none, cached := false, updated_at := now
      last_success_at := none, last_error_at := none }
  if source_id ∉ providerIds then
    let error_msg := "Unknown provider: " ++ source_id
    let db' := update_sync_status db source_id false (some error_msg) none 0 0 now
    ({ base with error := some error_msg, error_message := some error_msg
                 last_error_at := some now }, db')
  else
    let cached_items := if force then none else cache_hit
    match cached_items with
    | some items =>
      let persisted := persist_items db items
      let db' := update_sync_status persisted.2 source_id true none http_status
        items.length persisted.1 now
      ({ base with success := true, cached := true, items_fetched := items.length
                   items_added := persisted.1, items_saved := persisted.1
                   items_new := persisted.1, last_http_status := http_status
                   last_success_at := some now }, db')
    | none =>
      match fetch with
      | .ok items =>
        let persisted := persist_items db items
        let db' := update_sync_status persisted.2 source_id true none http_status
          items.length persisted.1 now
        ({ base with success := true, items_fetched := items.length
                     items_added := persisted.1, items_saved := persisted.1
                     items_new := persisted.1, last_http_status := http_status
                     last_success_at := some now }, db')
      | .error e =>
        let db' := update_sync_status db source_id false (some e) http_status 0 0 now
        ({ base with error := some e, error_message := some e
                     last_error_at := some now, last_http_status := http_status }, db')

/-- The batch result dict of `sync_all_providers`. -/
structure SyncAllResult where
  status : String
  degraded : Bool
  results : List SyncResult
  total_items_added : Nat
  sources_succeeded : Nat
  sources_failed : Nat
  deriving DecidableEq, Repr

/-- The per-source loop of `sync_all_providers` (the inter-source sleep has no
observable effect here; the defensive double-wrap `except` around
`sync_provider` is unreachable since `sync_provider` is total). -/
def syncLoop (sources : List String) (db : DB) (force : Bool)
    (cache_hit : String → Option (List WatchItem))
    (fetch : String → Except String (List WatchItem))
    (http_status : String → Option Nat) (now : Nat) :
    (List SyncResult × Nat × Nat × Nat) × DB :=
  match sources with
  | [] => (([], 0, 0, 0), db)
  | source_id :: rest =>
    let step := sync_provider source_id db force (cache_hit source_id)
      (fetch source_id) (http_status source_id) now
    let r := step.1
    let t := syncLoop rest step.2 force cache_hit fetch http_status now
    ((r :: t.1.1,
      (if r.success then r.items_added else 0) + t.1.2.1,
      (if r.success then 1 else 0) + t.1.2.2.1,
      (if r.success then 0 else 1) + t.1.2.2.2), t.2)

/-- `sync_all_providers`: sync every enabled source, aggregate the results,
and derive `status` / `degraded`. -/
def sync_all_providers (db : DB) (force : Bool)
    (cache_hit : String → Option (List WatchItem))
    (fetch : String → Except String (List WatchItem))
    (http_status : String → Option Nat) (now : Nat) : SyncAllResult × DB :=
  let loop := syncLoop enabledSources db force cache_hit fetch http_status now
  let results := loop.1.1
  let total := loop.1.2.1
  let succeeded := loop.1.2.2.1
  let failed := loop.1.2.2.2
  let status := if failed = 0 then "ok" else if succeeded = 0 then "error" else "ok"
  let degraded := decide (¬ failed = 0)
  ({ status := status, degraded := degraded, results := results
     total_items_added := total, sources_succeeded := succeeded
     sources_failed := failed }, loop.2)

/-! ## Health classification (`feed_service.py`, `get_health_status`) -/

/-- The per-source status classification inside `get_health_status`:
`pending` when the source has never run, `error` when the last error is more
recent than any success, else `ok`; the boolean is the derived
`is_healthy`. -/
def source_status_of (status : Option SyncStatusRow) : String × Bool :=
  match status with
  | none => ("pending", false)
  | some s =>
    if s.last_run_at.isNone then ("pending", false)
    else if s.last_error_at.isSome &&
      (s.last_success_at.isNone ||
        (match s.last_success_at, s.last_error_at with
         | some su, some er => decide (su < er)
         | _, _ => false)) then ("error", false)
    else ("ok", true)

/-! ## Concrete instances used by witnesses and counterexamples -/

/-- An empty database. -/
def emptyDB : DB := ⟨[], [], [], [], [], [], [], [], []⟩

/-- A processed evidence document whose text matches no finding keyword. -/
def demoEvidence : Evidence :=
  { id := 1, organization_id := 1, filename := "doc.pdf", sha256 := "a1b2"
    content_type := "application/pdf", uploaded_at := some 5, source := none
    extracted_text := "hello", status := .processed, error_message := none }

/-- An evidence document still pending processing. -/
def pendingEvidence : Evidence :=
  { demoEvidence with id := 2, status := .pending }

/-- An openFDA enforcement record with every key absent. -/
def blankRecall : RecallPayload := ⟨none, none, none, none, none, none, none⟩

/-- A shortage record with a drug name and a raw status but no manufacturer. -/
def demoShortagePayload : ShortagePayload :=
  { generic_name := some "Methotrexate", drug_name := none, product_name := none
    name := none, company_name := none, manufacturer := none, labeler := none
    firm_name := none, status := some "Currently in Shortage", availability := none
    shortage_status := none, update_date := none, updated_date := none
    last_update := none, date := none, initial_posting_date := none
    initial_date := none, package_ndc := some "0003-0293-11", ndc := none
    therapeutic_category := ["Oncology"], dosage_form := none, form := none
    presentation := none, strength := none, available := none }

/-- A store holding two feed items with keys `X` and `Y`. -/
def demoFeedDB : DB :=
  { emptyDB with watchtower_items :=
    [⟨1, "s", "X", "t", none, none, none, none⟩,
     ⟨2, "s", "Y", "t", none, none, none, none⟩] }

/-- A batch item for source `s` with the given external id. -/
def demoWatchItem (eid : String) : WatchItem :=
  mkWatchItem "s" eid "t" none none none none [] none none none

/-- A 5-item batch whose 2nd and 4th items duplicate stored items. -/
def demoBatch : List WatchItem :=
  [demoWatchItem "a", demoWatchItem "X", demoWatchItem "b",
   demoWatchItem "Y", demoWatchItem "c"]

/-- An empty database holding only `demoEvidence`. -/
def demoWorkflowDB : DB := { emptyDB with evidences := [demoEvidence] }

/-- The failed run persisted when the demo workflow hits an injected
exception `"boom"` at time 10. -/
def demoFailedRun : WorkflowRun :=
  { id := 1, organization_id := 1, evidence_id := 1, created_by := 7
    status := .failed, error_message := some "boom", findings_count := 0
    correlations_count := 0, actions_count := 0, created_at := 10
    completed_at := some 10 }

/-- A vendor-candidate extractor that finds nothing (for concrete
instantiation). -/
def noCandidates : String → String → List FindingData → List String := fun _ _ _ => []

/-- A database holding only the pending evidence document. -/
def demoPendingDB : DB := { emptyDB with evidences := [pendingEvidence] }

/-- A date parser that recognizes nothing (for concrete instantiation). -/
def noDates : String → Option Nat := fun _ => none

/-- The item `_parse_shortage_item` produces from `demoShortagePayload`. -/
def demoShortageItem : WatchItem :=
  { source := "fda_shortages", external_id := "shortage-0003-0293-11"
    title := "Drug Shortage: Methotrexate"
    url := some "https://www.accessdata.fda.gov/scripts/drugshortages/default.cfm"
    published_at := none, summary := some "Status: current. Category: Oncology"
    category := some "shortage", tags := ["shortage", "Oncology"]
    vendor_name := none, manufacturer := none, status := some "current" }

/-! ## Claim theorems -/

/-- C7 (code bug): on evidence text matching no keyword pattern the findings
extractor returns only 2 findings — the two fillers — not the documented
minimum of 3 (`_generate_mock_findings`'s caller docstring says
"Produces 3-10 findings"; both `len < 3` checks run before the second
append can see the first).  The claimed lower bound of 3 fails. -/
theorem mock_findings_undershoot_on_keywordless_text :
    (generate_mock_findings "hello" 1 0).length = 2 ∧
    (generate_mock_findings "hello" 1 0).map (fun f => f.title) =
      ["General Document Compliance Review", "Record Retention Verification"] := by
  decide

set_option maxRecDepth 4000 in
/-- C9 (code bug): with no HIGH finding, no active alert, no vendor match and
an empty feed store, the correlation narrative holds exactly 1 bullet (the
neutral default) — the module's own schema comment and endpoint docstring
promise 3–5 bullets.  The bound also fails above: at most 4 conditional
bullets exist. -/
theorem correlation_narrative_single_bullet_on_quiet_state :
    (generate_correlation (fun _ _ _ => []) emptyDB demoEvidence [] 1 10).narrative =
      ["No significant correlations detected. Consider uploading more evidence or syncing Watchtower feeds."] ∧
    (generate_correlation (fun _ _ _ => []) emptyDB demoEvidence [] 1 10).narrative.length = 1 := by
  decide

/-- C8 counterexample: the recalls JSON parser substitutes the literal
`"Unknown Product"` for a missing `product_description`, so a produced feed
item's title can contain `"Unknown"` — refuting the claim as stated. -/
theorem recalls_parse_defaults_unknown_into_title :
    (parse_recall_item blankRecall).title = "Recall: Unknown Product" ∧
    parse_recall_item blankRecall ∈ parse_recall_json [blankRecall] ∧
    containsSub (parse_recall_item blankRecall).title "Unknown" = true := by
  decide

/-- `normalize_shortage_status` is total into
`{none, current, resolved, terminated}`. -/
theorem normalize_shortage_status_mem (s : String) :
    normalize_shortage_status s = none ∨
    normalize_shortage_status s = some "current" ∨
    normalize_shortage_status s = some "resolved" ∨
    normalize_shortage_status s = some "terminated" := by
  simp only [normalize_shortage_status]
  split_ifs <;> simp

/-- C8 (amended): an absent upstream manufacturer is represented as `none`
(never a placeholder) by the shortages parser, whose `status` is always one
of `current` / `resolved` / `terminated` / `none`; the recalls parser leaves
`vendor_name`, `manufacturer` and `status` null on every item.  (As amended:
the recalls parser's *title* can still contain `"Unknown"` via its
`"Unknown Product"` / `"Unknown Manufacturer"` defaults — see the
counterexample.) -/
theorem providers_model_absence_as_null :
    (∀ (pd : String → Option Nat) (item : ShortagePayload) (it : WatchItem),
      parse_shortage_item pd item = some it →
        (it.status = none ∨ it.status = some "current" ∨ it.status = some "resolved" ∨
          it.status = some "terminated") ∧
        (firstTruthy [item.company_name, item.manufacturer, item.labeler,
            item.firm_name] = none →
          it.vendor_name = none ∧ it.manufacturer = none)) ∧
    (∀ (rs : List RecallPayload) (it : WatchItem), it ∈ parse_recall_json rs →
      it.vendor_name = none ∧ it.manufacturer = none ∧ it.status = none) := by
  constructor
  · intro pd item it h
    unfold parse_shortage_item at h
    dsimp only at h
    split at h
    · exact absurd h (by simp)
    · rw [Option.some_inj] at h
      subst h
      constructor
      · simpa [shortageItemOf, mkWatchItem] using
          normalize_shortage_status_mem
            ((firstTruthy [item.status, item.availability, item.shortage_status]).getD "")
      · intro hnone
        simp [shortageItemOf, mkWatchItem, hnone]
  · intro rs it h
    simp only [parse_recall_json, List.mem_map] at h
    obtain ⟨p, -, rfl⟩ := h
    simp [parse_recall_item, mkWatchItem]

/-- Witness for C8's amended theorem: the demo shortage payload (drug name
and raw status present, no manufacturer fields) parses to an item with null
vendor fields and normalized status. -/
theorem providers_model_absence_as_null_witness :
    parse_shortage_item noDates demoShortagePayload = some demoShortageItem ∧
    (demoShortageItem.status = none ∨ demoShortageItem.status = some "current" ∨
      demoShortageItem.status = some "resolved" ∨
      demoShortageItem.status = some "terminated") ∧
    demoShortageItem.vendor_name = none ∧ demoShortageItem.manufacturer = none ∧
    (parse_recall_item blankRecall).vendor_name = none ∧
    (parse_recall_item blankRecall).status = none := by
  have h := providers_model_absence_as_null
  have h1 := h.1 noDates demoShortagePayload demoShortageItem (by decide)
  have h2 := h.2 [blankRecall] (parse_recall_item blankRecall) (by decide)
  exact ⟨by decide, h1.1, (h1.2 (by decide)).1, (h1.2 (by decide)).2, h2.1, h2.2.2⟩

/-- `existsKey` unfolded to an existential over the store. -/
theorem existsKey_iff (l : List StoredItem) (it : WatchItem) :
    existsKey l it = true ↔
      ∃ e ∈ l, e.source = it.source ∧ e.external_id = it.external_id := by
  simp [existsKey, List.any_eq_true]

/-- `_persist_items` only appends to the store, and the count is the number
of appended rows. -/
theorem persist_items_append (items : List WatchItem) :
    ∀ db : DB, ∃ added : List StoredItem,
      (persist_items db items).2.watchtower_items = db.watchtower_items ++ added ∧
      added.length = (persist_items db items).1 := by
  induction items with
  | nil => intro db; exact ⟨[], by simp [persist_items], by simp [persist_items]⟩
  | cons it rest ih =>
    intro db
    by_cases hk : existsKey db.watchtower_items it
    · obtain ⟨added, h1, h2⟩ := ih db
      exact ⟨added, by simpa [persist_items, hk] using h1,
        by simpa [persist_items, hk] using h2⟩
    · obtain ⟨added, h1, h2⟩ :=
        ih { db with watchtower_items := db.watchtower_items ++ [storedOf db it] }
      refine ⟨storedOf db it :: added, ?_, ?_⟩
      · simp only [persist_items, hk, Bool.false_eq_true, if_false]
        rw [h1]
        simp
      · simp only [persist_items, hk, Bool.false_eq_true, if_false]
        simpa using h2

/-- Every batch item's key is present in the store after `_persist_items`
(either it already existed or its row was inserted). -/
theorem persist_items_mem (items : List WatchItem) :
    ∀ db : DB, ∀ it ∈ items, ∃ e ∈ (persist_items db items).2.watchtower_items,
      e.source = it.source ∧ e.external_id = it.external_id := by
  induction items with
  | nil => intro db it hmem; cases hmem
  | cons a rest ih =>
    intro db it hmem
    rcases List.mem_cons.mp hmem with rfl | hmem2
    · by_cases hk : existsKey db.watchtower_items it
      · obtain ⟨e, he, hkey⟩ := (existsKey_iff db.watchtower_items it).mp hk
        obtain ⟨added, h1, -⟩ := persist_items_append rest db
        refine ⟨e, ?_, hkey⟩
        simp only [persist_items, hk, if_true]
        rw [h1]
        exact List.mem_append_left _ he
      · obtain ⟨added, h1, -⟩ := persist_items_append rest
          { db with watchtower_items := db.watchtower_items ++ [storedOf db it] }
        refine ⟨storedOf db it, ?_, rfl, rfl⟩
        simp only [persist_items, hk, Bool.false_eq_true, if_false]
        rw [h1]
        simp
    · by_cases hk : existsKey db.watchtower_items a
      · simpa [persist_items, hk] using ih db it hmem2
      · simpa [persist_items, hk] using
          ih { db with watchtower_items := db.watchtower_items ++ [storedOf db a] } it hmem2

/-- Appending one row only changes `existsKey` for items sharing its key. -/
theorem existsKey_append_single (l : List StoredItem) (x : StoredItem) (b : WatchItem)
    (h : ¬(x.source = b.source ∧ x.external_id = b.external_id)) :
    existsKey (l ++ [x]) b = existsKey l b := by
  simp only [existsKey, List.any_append, List.any_cons, List.any_nil, Bool.or_false]
  have : (x.source = b.source && x.external_id = b.external_id) = false := by
    rcases Decidable.em (x.source = b.source) with hs | hs <;> simp [hs]
    intro he
    exact absurd ⟨hs, he⟩ h
  simp [this]

/-- Over a batch with pairwise-distinct keys, the new-item count is the number
of batch items whose key was absent from the initial store. -/
theorem persist_items_count (items : List WatchItem)
    (hpw : items.Pairwise (fun a b => ¬(a.source = b.source ∧ a.external_id = b.external_id))) :
    ∀ db : DB, (persist_items db items).1 =
      (items.filter (fun it => ! existsKey db.watchtower_items it)).length := by
  induction items with
  | nil => intro db; simp [persist_items]
  | cons a rest ih =>
    have hforall := (List.pairwise_cons.mp hpw).1
    have htail := (List.pairwise_cons.mp hpw).2
    intro db
    by_cases hk : existsKey db.watchtower_items a
    · simpa [persist_items, hk] using ih htail db
    · simp only [persist_items, hk, Bool.false_eq_true, if_false, List.filter_cons,
        Bool.not_eq_true', Bool.not_false, if_true, List.length_cons]
      have hcong : rest.filter (fun it => ! existsKey
            (db.watchtower_items ++ [storedOf db a]) it) =
          rest.filter (fun it => ! existsKey db.watchtower_items it) := by
        refine List.filter_congr ?_
        intro b hb
        have hne : ¬((storedOf db a).source = b.source ∧
            (storedOf db a).external_id = b.external_id) := by
          simpa [storedOf] using hforall b hb
        rw [existsKey_append_single _ _ _ hne]
      have := ih htail { db with watchtower_items := db.watchtower_items ++ [storedOf db a] }
      simp only at this
      rw [this, hcong]

/-- C6: `UpsertFeedItems` (`_persist_items`) discards batch items whose
`(source, external_id)` key already exists while the rest of the batch
continues (the store only grows, by the inserted rows); every batch item's
key is present afterwards; and — for a batch without internal duplicate
keys — the returned new-item count equals the number of non-duplicate items.
The function is total: no exception reaches the caller. -/
theorem upsert_feed_items_skips_duplicates :
    ∀ (db : DB) (items : List WatchItem),
      (∃ added : List StoredItem,
        (persist_items db items).2.watchtower_items = db.watchtower_items ++ added ∧
        added.length = (persist_items db items).1) ∧
      (∀ it ∈ items, ∃ e ∈ (persist_items db items).2.watchtower_items,
        e.source = it.source ∧ e.external_id = it.external_id) ∧
      (items.Pairwise (fun a b => ¬(a.source = b.source ∧ a.external_id = b.external_id)) →
        (persist_items db items).1 =
          (items.filter (fun it => ! existsKey db.watchtower_items it)).length) :=
  fun db items =>
    ⟨persist_items_append items db, persist_items_mem items db,
     fun hpw => persist_items_count items hpw db⟩

/-- Witness for C6: a 5-item batch whose 2nd and 4th items duplicate stored
items yields `newCount = 3`, matching the count of non-duplicates. -/
theorem upsert_feed_items_skips_duplicates_witness :
    (persist_items demoFeedDB demoBatch).1 =
      (demoBatch.filter (fun it => ! existsKey demoFeedDB.watchtower_items it)).length ∧
    (persist_items demoFeedDB demoBatch).1 = 3 := by
  have h := (upsert_feed_items_skips_duplicates demoFeedDB demoBatch).2.2 (by decide)
  exact ⟨h, by decide⟩

/-- After `putSyncStatus`, looking up the written row's source finds exactly
that row. -/
theorem putSyncStatus_find (rows : List SyncStatusRow) (row : SyncStatusRow) :
    (putSyncStatus rows row).find? (fun s => s.source = row.source) = some row := by
  induction rows with
  | nil => simp [putSyncStatus]
  | cons r rest ih =>
    by_cases hr : r.source = row.source
    · simp [putSyncStatus, hr]
    · by_cases ha : rest.any (fun s => s.source = row.source)
      · have hrw : putSyncStatus (r :: rest) row = r :: putSyncStatus rest row := by
          simp [putSyncStatus, hr, ha]
        rw [hrw, List.find?_cons_of_neg _ (by simp [hr]), ih]
      · have hrw : putSyncStatus (r :: rest) row = r :: putSyncStatus rest row := by
          simp [putSyncStatus, hr, ha]
        rw [hrw, List.find?_cons_of_neg _ (by simp [hr]), ih]

/-- A fetched sync-status row carries the source it was looked up by. -/
theorem getSyncStatus_source (db : DB) (src : String) (p : SyncStatusRow)
    (h : getSyncStatus db src = some p) : p.source = src := by
  have := List.find?_some h
  simpa using this

/-- `syncRowAfter` writes a row for the requested source. -/
theorem syncRowAfter_source (prev : Option SyncStatusRow) (src : String) (succ : Bool)
    (err : Option String) (hs : Option Nat) (f s now : Nat)
    (hprev : ∀ p, prev = some p → p.source = src) :
    (syncRowAfter prev src succ err hs f s now).source = src := by
  cases prev with
  | none => cases succ <;> simp [syncRowAfter]
  | some p => have := hprev p rfl; cases succ <;> simp [syncRowAfter, this]

/-- After `_update_sync_status`, the stored row for the source is exactly the
recomputed row. -/
theorem getSyncStatus_update (db : DB) (src : String) (succ : Bool)
    (err : Option String) (hs : Option Nat) (f s now : Nat) :
    getSyncStatus (update_sync_status db src succ err hs f s now) src =
      some (syncRowAfter (getSyncStatus db src) src succ err hs f s now) := by
  have hsrc : (syncRowAfter (getSyncStatus db src) src succ err hs f s now).source = src :=
    syncRowAfter_source _ _ _ _ _ _ _ _ (fun p hp => getSyncStatus_source db src p hp)
  have h := putSyncStatus_find db.sync_statuses
    (syncRowAfter (getSyncStatus db src) src succ err hs f s now)
  rw [hsrc] at h
  simpa [getSyncStatus, update_sync_status] using h

/-- C10: a successful sync sets `last_success_at` to the run time and clears
both error fields — erasing all prior error telemetry — and the health
classification immediately reports the source `ok`/healthy; a failed sync
sets `last_error_at` to the run time and leaves `last_success_at`
untouched. -/
theorem sync_status_success_resets_error_telemetry :
    ∀ (db : DB) (src : String) (err : Option String) (hs : Option Nat) (f s now : Nat),
      (getSyncStatus (update_sync_status db src true none hs f s now) src =
        some (syncRowAfter (getSyncStatus db src) src true none hs f s now)) ∧
      ((syncRowAfter (getSyncStatus db src) src true none hs f s now).last_run_at = some now ∧
       (syncRowAfter (getSyncStatus db src) src true none hs f s now).last_success_at = some now ∧
       (syncRowAfter (getSyncStatus db src) src true none hs f s now).last_error_at = none ∧
       (syncRowAfter (getSyncStatus db src) src true none hs f s now).last_error_message = none ∧
       source_status_of (some (syncRowAfter (getSyncStatus db src) src true none hs f s now)) =
         ("ok", true)) ∧
      (getSyncStatus (update_sync_status db src false err hs f s now) src =
        some (syncRowAfter (getSyncStatus db src) src false err hs f s now)) ∧
      ((syncRowAfter (getSyncStatus db src) src false err hs f s now).last_run_at = some now ∧
       (syncRowAfter (getSyncStatus db src) src false err hs f s now).last_error_at = some now ∧
       (syncRowAfter (getSyncStatus db src) src false err hs f s now).last_success_at =
         (match getSyncStatus db src with
          | some p => p.last_success_at
          | none => none)) := by
  intro db src err hs f s now
  refine ⟨getSyncStatus_update db src true none hs f s now, ⟨?_, ?_, ?_, ?_, ?_⟩,
    getSyncStatus_update db src false err hs f s now, ⟨?_, ?_, ?_⟩⟩
  all_goals cases hp : getSyncStatus db src <;>
    simp [syncRowAfter, source_status_of, hp]

/-- C4: `SyncOne` (`sync_provider`) is total — a result dict comes back for
every source id and every fetch outcome, never an exception (cache and
persistence failures are absorbed before this level).  An unregistered
source yields a failed result carrying `Unknown provider`; a provider that
throws yields `success = false` with the error text in `error_message`, and
the failure is written into the `SyncStatus` row (error time = run time,
message truncated to 500 characters). -/
theorem sync_one_records_failures :
    ∀ (src : String) (db : DB) (force : Bool) (cache_hit : Option (List WatchItem))
      (fetch : Except String (List WatchItem)) (hs : Option Nat) (now : Nat),
      ((sync_provider src db force cache_hit fetch hs now).1.source = src ∧
       (sync_provider src db force cache_hit fetch hs now).1.updated_at = now) ∧
      (src ∉ providerIds →
        (sync_provider src db force cache_hit fetch hs now).1.success = false ∧
        (sync_provider src db force cache_hit fetch hs now).1.error_message =
          some ("Unknown provider: " ++ src) ∧
        (sync_provider src db force cache_hit fetch hs now).1.last_error_at = some now) ∧
      (∀ e, src ∈ providerIds → (force = true ∨ cache_hit = none) → fetch = .error e →
        (sync_provider src db force cache_hit fetch hs now).1.success = false ∧
        (sync_provider src db force cache_hit fetch hs now).1.error_message = some e ∧
        (sync_provider src db force cache_hit fetch hs now).1.error = some e ∧
        (sync_provider src db force cache_hit fetch hs now).1.last_error_at = some now ∧
        (sync_provider src db force cache_hit fetch hs now).1.items_added = 0 ∧
        getSyncStatus (sync_provider src db force cache_hit fetch hs now).2 src =
          some (syncRowAfter (getSyncStatus db src) src false (some e) hs 0 0 now) ∧
        (syncRowAfter (getSyncStatus db src) src false (some e) hs 0 0 now).last_error_at =
          some now ∧
        (e ≠ "" →
          (syncRowAfter (getSyncStatus db src) src false (some e) hs 0 0 now).last_error_message =
            some (strTake e 500))) := by
  intro src db force cache_hit fetch hs now
  refine ⟨?_, ?_, ?_⟩
  · by_cases hmem : src ∉ providerIds
    · simp [sync_provider, hmem]
    · simp only [sync_provider, hmem, if_false]
      cases hc : (if force then none else cache_hit) with
      | some items => simp
      | none => cases fetch <;> simp
  · intro hmem
    simp [sync_provider, hmem]
  · intro e hmem hcache hfetch
    subst hfetch
    have hnot : ¬ src ∉ providerIds := by simpa using hmem
    have hc : (if force then none else cache_hit) = (none : Option (List WatchItem)) := by
      rcases hcache with hf | hch
      · simp [hf]
      · cases force <;> simp [hch]
    refine ⟨?_, ?_, ?_, ?_, ?_, ?_, ?_, ?_⟩
    · simp [sync_provider, hnot, hc]
    · simp [sync_provider, hnot, hc]
    · simp [sync_provider, hnot, hc]
    · simp [sync_provider, hnot, hc]
    · simp [sync_provider, hnot, hc]
    · simp only [sync_provider, hnot, if_false, hc]
      exact getSyncStatus_update db src false (some e) hs 0 0 now
    · cases hp : getSyncStatus db src <;> simp [syncRowAfter, hp]
    · intro he
      cases hp : getSyncStatus db src <;> simp [syncRowAfter, hp, pyTruthy, he]

/-- Witness for C4: a registered source whose provider raises `HTTP 503`
under `force=true` produces a failed result with the error recorded in both
the result and the sync-status row. -/
theorem sync_one_records_failures_witness :
    (sync_provider "fda_recalls" emptyDB true none (.error "HTTP 503") (some 503) 3).1.success
      = false ∧
    (sync_provider "fda_recalls" emptyDB true none (.error "HTTP 503") (some 503) 3).1.error_message
      = some "HTTP 503" ∧
    (syncRowAfter (getSyncStatus emptyDB "fda_recalls") "fda_recalls" false (some "HTTP 503")
      (some 503) 0 0 3).last_error_message = some (strTake "HTTP 503" 500) := by
  have h := (sync_one_records_failures "fda_recalls" emptyDB true none (.error "HTTP 503")
    (some 503) 3).2.2 "HTTP 503" (by decide) (Or.inl rfl) rfl
  exact ⟨h.1, h.2.1, h.2.2.2.2.2.2.2 (by decide)⟩

/-- A failed `sync_provider` result reports zero items added. -/
theorem sync_provider_failed_zero (src : String) (db : DB) (force : Bool)
    (cache_hit : Option (List WatchItem)) (fetch : Except String (List WatchItem))
    (hs : Option Nat) (now : Nat)
    (h : (sync_provider src db force cache_hit fetch hs now).1.success = false) :
    (sync_provider src db force cache_hit fetch hs now).1.items_added = 0 := by
  by_cases hmem : src ∉ providerIds
  · simp [sync_provider, hmem]
  · simp only [sync_provider, hmem, if_false] at h ⊢
    cases hc : (if force then none else cache_hit) with
    | some items => simp [hc] at h
    | none => cases fetch with
      | ok items => simp [hc] at h
      | error e => simp [hc]

/-- Loop invariant of `sync_all_providers`: one result per source, the
succeeded/failed tallies partition the sources, and the total equals the sum
of per-result `items_added`. -/
theorem syncLoop_invariant (sources : List String) :
    ∀ (db : DB) (force : Bool) (cache_hit : String → Option (List WatchItem))
      (fetch : String → Except String (List WatchItem))
      (http_status : String → Option Nat) (now : Nat),
      (syncLoop sources db force cache_hit fetch http_status now).1.1.length =
        sources.length ∧
      (syncLoop sources db force cache_hit fetch http_status now).1.2.2.1 +
        (syncLoop sources db force cache_hit fetch http_status now).1.2.2.2 =
        sources.length ∧
      (syncLoop sources db force cache_hit fetch http_status now).1.2.1 =
        ((syncLoop sources db force cache_hit fetch http_status now).1.1.map
          (fun r => r.items_added)).sum := by
  induction sources with
  | nil => intro db force ch f hs now; simp [syncLoop]
  | cons s rest ih =>
    intro db force ch f hs now
    obtain ⟨h1, h2, h3⟩ :=
      ih (sync_provider s db force (ch s) (f s) (hs s) now).2 force ch f hs now
    refine ⟨?_, ?_, ?_⟩
    · simp [syncLoop, h1]
    · simp only [syncLoop, List.length_cons]
      cases hr : (sync_provider s db force (ch s) (f s) (hs s) now).1.success <;>
        simp [hr] <;> omega
    · simp only [syncLoop, List.map_cons, List.sum_cons]
      cases hr : (sync_provider s db force (ch s) (f s) (hs s) now).1.success with
      | true => simp [hr, h3]
      | false =>
        have hz := sync_provider_failed_zero s db force (ch s) (f s) (hs s) now hr
        simp [hr, h3, hz]

/-- C5: every `SyncAll` outcome satisfies the aggregation contract:
`sources_succeeded + sources_failed` equals the number of enabled sources
(one result per source), `total_items_added` is the sum of the per-source
`items_added`, `status = "ok"` iff at least one source succeeded, and
`degraded` iff at least one source failed. -/
theorem sync_all_aggregation_contract :
    ∀ (db : DB) (force : Bool) (cache_hit : String → Option (List WatchItem))
      (fetch : String → Except String (List WatchItem))
      (http_status : String → Option Nat) (now : Nat),
      (sync_all_providers db force cache_hit fetch http_status now).1.sources_succeeded +
        (sync_all_providers db force cache_hit fetch http_status now).1.sources_failed =
        enabledSources.length ∧
      (sync_all_providers db force cache_hit fetch http_status now).1.results.length =
        enabledSources.length ∧
      (sync_all_providers db force cache_hit fetch http_status now).1.total_items_added =
        (((sync_all_providers db force cache_hit fetch http_status now).1.results).map
          (fun r => r.items_added)).sum ∧
      ((sync_all_providers db force cache_hit fetch http_status now).1.status = "ok" ↔
        1 ≤ (sync_all_providers db force cache_hit fetch http_status now).1.sources_succeeded) ∧
      ((sync_all_providers db force cache_hit fetch http_status now).1.degraded = true ↔
        1 ≤ (sync_all_providers db force cache_hit fetch http_status now).1.sources_failed) := by
  intro db force ch f hs now
  obtain ⟨h1, h2, h3⟩ := syncLoop_invariant enabledSources db force ch f hs now
  have h2' : (syncLoop enabledSources db force ch f hs now).1.2.2.1 +
      (syncLoop enabledSources db force ch f hs now).1.2.2.2 = 3 := by
    simpa [enabledSources] using h2
  refine ⟨by simpa [sync_all_providers] using h2,
    by simpa [sync_all_providers] using h1,
    by simpa [sync_all_providers] using h3, ?_, ?_⟩
  · simp only [sync_all_providers]
    by_cases hfail : (syncLoop enabledSources db force ch f hs now).1.2.2.2 = 0
    · simp only [hfail, if_true]
      constructor
      · intro; omega
      · intro; trivial
    · by_cases hsucc : (syncLoop enabledSources db force ch f hs now).1.2.2.1 = 0
      · simp only [hfail, if_false, hsucc, if_true]
        constructor
        · intro hok; exact absurd hok (by decide)
        · intro hge; omega
      · simp only [hfail, if_false, hsucc]
        constructor
        · intro; omega
        · intro; trivial
  · simp only [sync_all_providers]
    by_cases hfail : (syncLoop enabledSources db force ch f hs now).1.2.2.2 = 0
    · simp [hfail]
    · simp [hfail]
      omega

/-- The filler step leaves at least one finding. -/
theorem fillerStep_pos (base : List FindingData) (general retention : FindingData) :
    1 ≤ (fillerStep base general retention).length := by
  simp only [fillerStep]
  split_ifs <;> · try simp [List.length_append]
                  try omega

/-- The findings extractor always produces at least one finding. -/
theorem generate_mock_findings_pos (text : String) (eid now : Nat) :
    1 ≤ (generate_mock_findings text eid now).length := by
  simp only [generate_mock_findings]
  rw [List.length_take, List.length_map, List.enum_length]
  rw [Nat.le_min]
  exact ⟨by norm_num, fillerStep_pos _ _ _⟩

/-- C3: `RunWorkflow` (`run_complete_workflow`) on evidence that is missing,
not yet processed (pending / processing / failed — each refused with its own
distinct error), or processed but without extracted text, returns a
precondition refusal and leaves the database unchanged: no `WorkflowRun` row
is created. -/
theorem run_workflow_refuses_unprocessed :
    ∀ (ec : String → String → List FindingData → List String) (db : DB)
      (org user evId : Nat) (exc : Option String) (now : Nat),
      (findEvidence db org evId = none →
        run_complete_workflow ec db org user evId exc now =
          (.error .evidence_not_found, db)) ∧
      (∀ ev, findEvidence db org evId = some ev →
        (ev.status = .pending →
          run_complete_workflow ec db org user evId exc now =
            (.error .evidence_pending, db)) ∧
        (ev.status = .processing →
          run_complete_workflow ec db org user evId exc now =
            (.error .evidence_processing, db)) ∧
        (ev.status = .failed →
          run_complete_workflow ec db org user evId exc now =
            (.error (.evidence_failed ev.error_message), db)) ∧
        (ev.status = .processed → ev.extracted_text = "" →
          run_complete_workflow ec db org user evId exc now =
            (.error .evidence_empty, db)) ∧
        (WfRefusal.evidence_pending ≠ .evidence_processing ∧
         WfRefusal.evidence_pending ≠ .evidence_failed ev.error_message ∧
         WfRefusal.evidence_pending ≠ .evidence_empty ∧
         WfRefusal.evidence_processing ≠ .evidence_failed ev.error_message ∧
         WfRefusal.evidence_processing ≠ .evidence_empty ∧
         WfRefusal.evidence_failed ev.error_message ≠ .evidence_empty)) := by
  intro ec db org user evId exc now
  refine ⟨?_, ?_⟩
  · intro h
    simp [run_complete_workflow, h]
  · intro ev hev
    refine ⟨?_, ?_, ?_, ?_, by simp, by simp, by simp, by simp, by simp, by simp⟩
    · intro h; simp [run_complete_workflow, hev, h]
    · intro h; simp [run_complete_workflow, hev, h]
    · intro h; simp [run_complete_workflow, hev, h]
    · intro h htext; simp [run_complete_workflow, hev, h, htext]

/-- Witness for C3: running the workflow on pending evidence is refused with
`evidence_pending` and the database is unchanged. -/
theorem run_workflow_refuses_unprocessed_witness :
    run_complete_workflow noCandidates demoPendingDB 1 7 2 none 10 =
      (.error .evidence_pending, demoPendingDB) := by
  exact ((run_workflow_refuses_unprocessed noCandidates demoPendingDB 1 7 2 none 10).2
    pendingEvidence (by decide)).1 (by decide)

/-- C2: every run `run_complete_workflow` brings to a terminal state has
`completed_at` set; a run it marks `success` has at least one persisted
finding and exactly one persisted action plan, whose correlation snapshot is
non-empty.  (The hypothesis says existing plans reference existing runs, as
the foreign key guarantees.) -/
theorem workflow_terminal_state_invariants :
    ∀ (ec : String → String → List FindingData → List String) (db : DB)
      (org user evId : Nat) (exc : Option String) (now : Nat),
      (∀ p ∈ db.action_plans, p.workflow_run_id ≤ db.runs.length) →
      ∀ r, r ∈ (run_complete_workflow ec db org user evId exc now).2.runs →
        r ∉ db.runs →
        (r.status = .success ∨ r.status = .failed) ∧ r.completed_at = some now ∧
        (r.status = .success →
          1 ≤ (findingsFor (run_complete_workflow ec db org user evId exc now).2 r.id).length ∧
          (plansFor (run_complete_workflow ec db org user evId exc now).2 r.id).length = 1 ∧
          ∀ p ∈ plansFor (run_complete_workflow ec db org user evId exc now).2 r.id,
            p.correlation_data ≠ none) := by
  intro ec db org user evId exc now hwf r hr hnew
  cases hfind : findEvidence db org evId with
  | none =>
    rw [run_complete_workflow, hfind] at hr
    exact absurd hr hnew
  | some ev =>
    by_cases h1 : ev.status = .pending
    · rw [run_complete_workflow, hfind] at hr
      simp only [h1, if_true] at hr
      exact absurd hr hnew
    · by_cases h2 : ev.status = .processing
      · rw [run_complete_workflow, hfind] at hr
        simp only [h1, h2, if_true, if_false] at hr
        exact absurd hr hnew
      · by_cases h3 : ev.status = .failed
        · rw [run_complete_workflow, hfind] at hr
          simp only [h1, h2, h3, if_true, if_false] at hr
          exact absurd hr hnew
        · by_cases h4 : ev.extracted_text = ""
          · rw [run_complete_workflow, hfind] at hr
            simp only [h1, h2, h3, h4, if_true, if_false] at hr
            exact absurd hr hnew
          · cases exc with
            | some e =>
              rw [run_complete_workflow, hfind] at hr ⊢
              simp only [h1, h2, h3, h4, if_false] at hr ⊢
              rcases List.mem_append.mp hr with h | h
              · exact absurd h hnew
              · have hre := List.mem_singleton.mp h
                subst hre
                refine ⟨Or.inr rfl, rfl, ?_⟩
                intro hs
                exact absurd hs (by simp)
            | none =>
              rw [run_complete_workflow, hfind] at hr ⊢
              simp only [h1, h2, h3, h4, if_false] at hr ⊢
              rcases List.mem_append.mp hr with h | h
              · exact absurd h hnew
              · have hre := List.mem_singleton.mp h
                subst hre
                refine ⟨Or.inl rfl, rfl, ?_⟩
                intro _
                refine ⟨?_, ?_, ?_⟩
                · simp only [findingsFor, List.filter_append, List.length_append]
                  have hall : (generate_mock_findings ev.extracted_text evId now).enum.map
                      (fun p => ({ id := db.findings.length + p.1 + 1
                                   workflow_run_id := db.runs.length + 1
                                   evidence_id := evId, title := p.2.title
                                   description := p.2.description, severity := p.2.severity
                                   cfr_refs := p.2.cfr_refs, citations := p.2.citations
                                   entities := p.2.entities : RiskFindingRecord })) =
                      ((generate_mock_findings ev.extracted_text evId now).enum.map
                      (fun p => ({ id := db.findings.length + p.1 + 1
                                   workflow_run_id := db.runs.length + 1
                                   evidence_id := evId, title := p.2.title
                                   description := p.2.description, severity := p.2.severity
                                   cfr_refs := p.2.cfr_refs, citations := p.2.citations
                                   entities := p.2.entities : RiskFindingRecord }))).filter
                        (fun f => f.workflow_run_id = db.runs.length + 1) := by
                    rw [List.filter_eq_self.mpr]
                    intro x hx
                    obtain ⟨q, -, rfl⟩ := List.mem_map.mp hx
                    simp
                  rw [← hall]
                  have hpos := generate_mock_findings_pos ev.extracted_text evId now
                  simp only [List.length_map, List.enum_length]
                  omega
                · simp only [plansFor, List.filter_append]
                  have hold : db.action_plans.filter
                      (fun p => p.workflow_run_id = db.runs.length + 1) = [] := by
                    rw [List.filter_eq_nil_iff]
                    intro p hp
                    have := hwf p hp
                    simp only [decide_eq_true_eq]
                    omega
                  rw [hold]
                  simp
                · intro p hp
                  simp only [plansFor, List.filter_append] at hp
                  have hold : db.action_plans.filter
                      (fun q => q.workflow_run_id = db.runs.length + 1) = [] := by
                    rw [List.filter_eq_nil_iff]
                    intro q hq
                    have := hwf q hq
                    simp only [decide_eq_true_eq]
                    omega
                  rw [hold] at hp
                  simp only [List.nil_append] at hp
                  have hpmem := List.mem_filter.mp hp
                  have hpe := List.mem_singleton.mp hpmem.1
                  subst hpe
                  simp

/-- Witness for C2: an injected exception on processed evidence leaves a
single new run that is terminal (`failed`) with `completed_at` set. -/
theorem workflow_terminal_state_invariants_witness :
    (demoFailedRun.status = .success ∨ demoFailedRun.status = .failed) ∧
    demoFailedRun.completed_at = some 10 ∧
    (run_complete_workflow noCandidates demoWorkflowDB 1 7 1 (some "boom") 10).2.runs =
      [demoFailedRun] := by
  have h := workflow_terminal_state_invariants noCandidates demoWorkflowDB 1 7 1
    (some "boom") 10 (by simp [demoWorkflowDB, emptyDB]) demoFailedRun
    (by decide) (by decide)
  exact ⟨h.1, h.2.1, by decide⟩

/-- C1: `ExportAuditPacket` refuses with the matching structured error for
each precondition — `evidence_not_found` for missing or foreign-tenant
evidence, `evidence_not_processed` for unprocessed evidence,
`workflow_run_not_found` for an unresolvable explicit `run_id`,
`no_workflow_run` (with an `action_required` hint) when no successful run
exists and none was named, `workflow_run_not_successful` for a resolved
non-successful run, and `findings_missing` / `action_plan_missing` /
`correlation_missing` for incomplete artifacts — in each case leaving the
database unchanged; only when every check passes does it render the
document, whose lines contain the run identifier, and append an
`audit_packet_exported` audit entry. -/
theorem export_audit_packet_gating :
    ∀ (db : DB) (org evId : Nat) (rid : Option Nat) (actor now : Nat),
      (findEvidence db org evId = none →
        export_audit_packet db org evId rid actor now =
          (.error (.evidence_not_found evId), db)) ∧
      (∀ ev, findEvidence db org evId = some ev →
        (ev.status ≠ .processed →
          export_audit_packet db org evId rid actor now =
            (.error (.evidence_not_processed evId ev.status.value), db)) ∧
        (ev.status = .processed →
          (∀ rr, rid = some rr → findRunById db org evId rr = none →
            export_audit_packet db org evId rid actor now =
              (.error (.workflow_run_not_found evId rr), db)) ∧
          (rid = none → latestSuccessRun db org evId = none →
            export_audit_packet db org evId rid actor now =
              (.error (.no_workflow_run evId
                ("POST /api/risk/workflow/run?evidence_id=" ++ toString evId)), db)) ∧
          (∀ run, resolvedRun db org evId rid = some run →
            (run.status ≠ .success →
              export_audit_packet db org evId rid actor now =
                (.error (.workflow_run_not_successful evId run.id run.status.value
                  run.error_message), db)) ∧
            (run.status = .success →
              (findingsFor db run.id = [] →
                export_audit_packet db org evId rid actor now =
                  (.error (.findings_missing evId run.id), db)) ∧
              (findingsFor db run.id ≠ [] → planFor db run.id = none →
                export_audit_packet db org evId rid actor now =
                  (.error (.action_plan_missing evId run.id), db)) ∧
              (∀ plan, findingsFor db run.id ≠ [] → planFor db run.id = some plan →
                plan.correlation_data = none →
                export_audit_packet db org evId rid actor now =
                  (.error (.correlation_missing evId run.id), db)) ∧
              (∀ plan corr, findingsFor db run.id ≠ [] → planFor db run.id = some plan →
                plan.correlation_data = some corr →
                export_audit_packet db org evId rid actor now =
                  (.ok { lines := exportLines ev run (findingsFor db run.id) plan corr
                           (auditLogsForExport db org evId run.id) now
                         content := String.intercalate "\n"
                           (exportLines ev run (findingsFor db run.id) plan corr
                             (auditLogsForExport db org evId run.id) now)
                         filename := "audit_packet_run" ++ toString run.id ++ "_ev"
                           ++ toString evId ++ "_" ++ toString now ++ ".md" },
                   { db with audit_logs := db.audit_logs ++
                      [{ organization_id := org, user_id := actor
                         action := "audit_packet_exported"
                         entity_type := "workflow_run", entity_id := run.id
                         timestamp := now }] }) ∧
                ("**Workflow Run ID: " ++ toString run.id ++ "**") ∈
                  exportLines ev run (findingsFor db run.id) plan corr
                    (auditLogsForExport db org evId run.id) now))))) := by
  intro db org evId rid actor now
  refine ⟨?_, ?_⟩
  · intro h
    simp [export_audit_packet, h]
  · intro ev hev
    refine ⟨?_, ?_⟩
    · intro hne
      simp [export_audit_packet, hev, hne]
    · intro hst
      refine ⟨?_, ?_, ?_⟩
      · intro rr hrid hfr
        subst hrid
        have hres : resolvedRun db org evId (some rr) = none := by
          simp [resolvedRun, hfr]
        simp [export_audit_packet, hev, hst, hres]
      · intro hrid hlast
        subst hrid
        have hres : resolvedRun db org evId none = none := by
          simp [resolvedRun, hlast]
        simp [export_audit_packet, hev, hst, hres]
      · intro run hres
        refine ⟨?_, ?_⟩
        · intro hns
          simp [export_audit_packet, hev, hst, hres, hns]
        · intro hsucc
          refine ⟨?_, ?_, ?_, ?_⟩
          · intro hf
            simp [export_audit_packet, hev, hst, hres, hsucc, hf]
          · intro hf hplan
            have hfe : (findingsFor db run.id).isEmpty = false := by
              simpa [List.isEmpty_iff] using hf
            simp [export_audit_packet, hev, hst, hres, hsucc, hfe, hplan]
          · intro plan hf hplan hcorr
            have hfe : (findingsFor db run.id).isEmpty = false := by
              simpa [List.isEmpty_iff] using hf
            simp [export_audit_packet, hev, hst, hres, hsucc, hfe, hplan, hcorr]
          · intro plan corr hf hplan hcorr
            have hfe : (findingsFor db run.id).isEmpty = false := by
              simpa [List.isEmpty_iff] using hf
            constructor
            · simp [export_audit_packet, hev, hst, hres, hsucc, hfe, hplan, hcorr]
            · simp [exportLines]

/-- Witness for C1: exporting for an evidence id absent from the store is
refused with `evidence_not_found` and the database is unchanged. -/
theorem export_audit_packet_gating_witness :
    export_audit_packet emptyDB 1 5 none 7 9 =
      (.error (.evidence_not_found 5), emptyDB) :=
  (export_audit_packet_gating emptyDB 1 5 none 7 9).1 (by decide)
